import Mathlib

/-!
Verification of the `trigger_system` Zed extension launcher
(`src/zed-extension/src/lib.rs`).

The only function of interest is `language_server_command`: it looks up a
`node` interpreter on the search path, scans three candidate bundle paths in
order, and returns either a launch command or an error string.

The embedding is a shallow one: the environment (search-path lookup and
filesystem existence) is passed in as oracles, and the function additionally
returns the list of effects it performed, so that frame/effect claims can be
stated.  Each definition mirrors the corresponding Rust construct.
-/

namespace TriggerSystem

/-- The worktree handle the editor host passes in: it exposes the project
root path (`worktree.root_path()`) and the search-path lookup
(`worktree.which(binary)`). -/
structure Worktree where
  root_path : String
  which : String → Option String

/-- The filesystem oracle: `pathExists p` is the answer `Path::exists`
gives for path `p` during this invocation. -/
structure FileSystem where
  pathExists : String → Bool

/-- One observable effect of a run.  The Rust code only ever performs the
first two kinds; the write/spawn kinds exist so that their absence is a
meaningful statement. -/
inductive Effect where
  | whichLookup (binary : String)
  | existsCheck (path : String)
  | fsWrite (path : String)
  | spawnProcess (executable : String)
deriving DecidableEq, Repr

/-- `zed::Command`: executable, arguments, environment
(`env: Default::default()` is the empty mapping). -/
structure Command where
  command : String
  args : List String
  env : List (String × String)
deriving DecidableEq, Repr

/-- `struct TriggerSystemExtension;` — a unit struct with no fields. -/
structure TriggerSystemExtension where
deriving DecidableEq, Repr

/-- `fn new() -> Self { Self }` of the `zed::Extension` impl. -/
def TriggerSystemExtension.new : TriggerSystemExtension := {}

/-- `Path::new(base).join(rel)` for a relative `rel` (Unix semantics):
pushing onto an empty path yields `rel`; otherwise a `/` separator is
inserted unless `base` already ends with one. -/
def pathJoin (base rel : String) : String :=
  if base = "" then rel
  else if base.data.getLast? = some '/' then base ++ rel
  else base ++ "/" ++ rel

/-- The development-layout candidate, relative to the worktree root
(lib.rs line 28). -/
def devBundleRel : String := "vscode-extension/dist/lsp/server.bundle.js"

/-- How Rust's `Debug` escapes a single character inside a quoted string:
backslash and double quote are escaped (other escape_debug cases do not
arise for the paths handled here). -/
def escChar (c : Char) : List Char :=
  if c = '\\' then ['\\', '\\']
  else if c = '"' then ['\\', '"']
  else [c]

/-- Escape a string the way `{:?}` renders its contents. -/
def escapeDebug (s : String) : String := String.mk (s.data.flatMap escChar)

/-- `format!("{:?}", path)` for a `PathBuf`: the escaped string in double
quotes. -/
def rustDebugQuote (s : String) : String := "\"" ++ escapeDebug s ++ "\""

/-- The `BundleNotFound` error text (lib.rs lines 48–51), a function of
`lsp_paths[0]`, which is interpolated with `{:?}`. -/
def bundleNotFoundMsg (first : String) : String :=
  "Trigger System LSP not found.\nSearched in:\n1. " ++ rustDebugQuote first ++
  "\n2. server.bundle.js\n3. /server.bundle.js\n\nEnsure 'bun run build:lsp' was run and the bundle is in the extension folder."

/-- The `InterpreterNotFound` error text (lib.rs line 18). -/
def interpreterNotFoundMsg : String :=
  "node executable not found in PATH. Please install Node.js."

/-- The fixed candidate list `lsp_paths` (lib.rs lines 27–32), in priority
order. -/
def lspCandidates (root : String) : List String :=
  [pathJoin root devBundleRel, "server.bundle.js", "/server.bundle.js"]

/-- The `for path in &lsp_paths { if path.exists() { ...; break } }` scan
(lib.rs lines 34–40): returns the first existing candidate (if any)
together with the existence checks actually performed, in order. -/
def findBundle (fs : FileSystem) : List String → Option String × List Effect
  | [] => (none, [])
  | p :: rest =>
    if fs.pathExists p then (some p, [Effect.existsCheck p])
    else
      let r := findBundle fs rest
      (r.1, Effect.existsCheck p :: r.2)

/-- The outcome of one invocation: the `Result<zed::Command, String>`, the
extension state after the call, and the effect trace. -/
structure RunResult where
  result : Except String Command
  ext : TriggerSystemExtension
  trace : List Effect

/-- Shallow embedding of `language_server_command` (lib.rs lines 10–63).
The `?` on `worktree.which("node")` returns the interpreter error before
anything else happens; otherwise the three candidates are scanned in order
and the result is either the `BundleNotFound` error built from
`lsp_paths[0]` or the command `node_path [lsp_path, "--stdio"]` with the
default (empty) environment. -/
def language_server_command (ext : TriggerSystemExtension)
    (_language_server_id : String) (worktree : Worktree) (fs : FileSystem) :
    RunResult :=
  match worktree.which "node" with
  | none =>
      { result := .error interpreterNotFoundMsg
        ext := ext
        trace := [.whichLookup "node"] }
  | some node_path =>
      let lsp_paths := lspCandidates worktree.root_path
      let scan := findBundle fs lsp_paths
      match scan.1 with
      | none =>
          { result := .error (bundleNotFoundMsg (lsp_paths.headD ""))
            ext := ext
            trace := .whichLookup "node" :: scan.2 }
      | some lsp_path =>
          { result := .ok { command := node_path
                            args := [lsp_path, "--stdio"]
                            env := [] }
            ext := ext
            trace := .whichLookup "node" :: scan.2 }

/-- An effect is read-only when it is a lookup or an existence check. -/
def Effect.isReadOnly : Effect → Bool
  | .whichLookup _ => true
  | .existsCheck _ => true
  | .fsWrite _ => false
  | .spawnProcess _ => false

/-- Recognise search-path lookups in a trace. -/
def Effect.isWhichLookup : Effect → Bool
  | .whichLookup _ => true
  | _ => false

/-- Recognise existence checks in a trace. -/
def Effect.isExistsCheck : Effect → Bool
  | .existsCheck _ => true
  | _ => false

/-- `t` occurs inside `s` (substring containment, stated on the character
data). -/
def strContains (s t : String) : Prop := t.data <:+: s.data

instance (s t : String) : Decidable (strContains s t) :=
  List.decidableInfix t.data s.data

instance {ε α : Type} [DecidableEq ε] [DecidableEq α] :
    DecidableEq (Except ε α) := fun x y =>
  match x, y with
  | .error a, .error b =>
      if h : a = b then isTrue (by rw [h])
      else isFalse (fun hh => h (Except.error.inj hh))
  | .error _, .ok _ => isFalse (fun h => Except.noConfusion h)
  | .ok _, .error _ => isFalse (fun h => Except.noConfusion h)
  | .ok a, .ok b =>
      if h : a = b then isTrue (by rw [h])
      else isFalse (fun hh => h (Except.ok.inj hh))

end TriggerSystem

namespace TriggerSystem

set_option maxRecDepth 8192

/-! ### Helper lemmas about the candidate scan and the error message -/

/-- When no candidate exists, the scan returns `none` and checks every
candidate, in order. -/
theorem findBundle_eq_none (fs : FileSystem) (ps : List String)
    (h : ∀ p ∈ ps, fs.pathExists p = false) :
    findBundle fs ps = (none, ps.map Effect.existsCheck) := by
  induction ps with
  | nil => rfl
  | cons p rest ih =>
      simp [findBundle, h p (List.mem_cons_self p rest),
        ih (fun q hq => h q (List.mem_cons_of_mem p hq))]

/-- Whatever the scan returns was one of the candidates, and its existence
check answered `true`. -/
theorem findBundle_found (fs : FileSystem) (ps : List String) (p : String)
    (h : (findBundle fs ps).1 = some p) :
    p ∈ ps ∧ fs.pathExists p = true := by
  induction ps with
  | nil => simp [findBundle] at h
  | cons q rest ih =>
      cases hq : fs.pathExists q with
      | true =>
          simp [findBundle, hq] at h
          subst h
          exact ⟨List.mem_cons_self q rest, hq⟩
      | false =>
          simp [findBundle, hq] at h
          obtain ⟨hmem, hex⟩ := ih h
          exact ⟨List.mem_cons_of_mem q hmem, hex⟩

/-- Every effect emitted by the scan is an existence check. -/
theorem findBundle_trace_reads (fs : FileSystem) (ps : List String) :
    ∀ e ∈ (findBundle fs ps).2, ∃ p, e = Effect.existsCheck p := by
  induction ps with
  | nil => simp [findBundle]
  | cons q rest ih =>
      cases hq : fs.pathExists q with
      | true => simp [findBundle, hq]
      | false =>
          intro e he
          simp [findBundle, hq] at he
          rcases he with he | he
          · exact ⟨q, he⟩
          · exact ih e he

/-- Two filesystems that agree on the candidates drive the scan to the same
outcome and the same trace. -/
theorem findBundle_congr (fs1 fs2 : FileSystem) (ps : List String)
    (h : ∀ p ∈ ps, fs1.pathExists p = fs2.pathExists p) :
    findBundle fs1 ps = findBundle fs2 ps := by
  induction ps with
  | nil => rfl
  | cons q rest ih =>
      simp [findBundle, h q (List.mem_cons_self q rest),
        ih (fun p hp => h p (List.mem_cons_of_mem q hp))]

/-- The scan's trace consists of read-only effects. -/
theorem findBundle_trace_all_reads (fs : FileSystem) (ps : List String) :
    ((findBundle fs ps).2).all Effect.isReadOnly = true := by
  rw [List.all_eq_true]
  intro e he
  obtain ⟨p, hp⟩ := findBundle_trace_reads fs ps e he
  subst hp
  rfl

/-- The scan's trace performs no search-path lookup. -/
theorem findBundle_trace_no_which (fs : FileSystem) (ps : List String) :
    List.countP Effect.isWhichLookup (findBundle fs ps).2 = 0 := by
  rw [List.countP_eq_zero]
  intro e he
  obtain ⟨p, hp⟩ := findBundle_trace_reads fs ps e he
  subst hp
  simp [Effect.isWhichLookup]

/-- Debug escaping distributes over string append. -/
theorem escapeDebug_append (a b : String) :
    escapeDebug (a ++ b) = escapeDebug a ++ escapeDebug b := by
  simp [escapeDebug, String.data_append, List.flatMap_append]
  rfl

/-- The development-layout relative path needs no escaping. -/
theorem escapeDebug_devBundleRel : escapeDebug devBundleRel = devBundleRel := by
  decide

/-- The path separator needs no escaping. -/
theorem escapeDebug_slash : escapeDebug "/" = "/" := by decide

/-- Joining the development-layout path onto an escape-free root yields an
escape-free path. -/
theorem escapeDebug_pathJoin_dev (root : String)
    (hroot : escapeDebug root = root) :
    escapeDebug (pathJoin root devBundleRel) = pathJoin root devBundleRel := by
  unfold pathJoin
  split
  · exact escapeDebug_devBundleRel
  · split
    · rw [escapeDebug_append, hroot, escapeDebug_devBundleRel]
    · rw [escapeDebug_append, escapeDebug_append, hroot, escapeDebug_slash,
        escapeDebug_devBundleRel]

/-- Substring containment is preserved by prepending. -/
theorem strContains_append_right (a b t : String) (h : strContains b t) :
    strContains (a ++ b) t := by
  obtain ⟨s, u, hs⟩ := h
  exact ⟨a.data ++ s, u, by simp [String.data_append, ← hs, List.append_assoc]⟩

/-- The `BundleNotFound` message contains the first candidate path verbatim
when that path needs no Debug escaping. -/
theorem bundleNotFoundMsg_contains_first (c : String)
    (h : escapeDebug c = c) :
    strContains (bundleNotFoundMsg c) c := by
  refine ⟨("Trigger System LSP not found.\nSearched in:\n1. \"").data,
    ("\"\n2. server.bundle.js\n3. /server.bundle.js\n\nEnsure 'bun run build:lsp' was run and the bundle is in the extension folder.").data, ?_⟩
  simp [bundleNotFoundMsg, rustDebugQuote, h, String.data_append, List.append_assoc]

/-! ### Concrete fixtures used by the witness theorems -/

/-- A worktree whose search path resolves `node` (and nothing else). -/
def sampleWorktree : Worktree :=
  { root_path := "/home/user/proj"
    which := fun s => if s == "node" then some "/usr/bin/node" else none }

/-- A worktree equal to `sampleWorktree` on `node` and on the root, but with
a different answer for every other binary. -/
def sampleWorktree2 : Worktree :=
  { root_path := "/home/user/proj"
    which := fun s => if s == "node" then some "/usr/bin/node" else some "/bin/sh" }

/-- A worktree with no `node` on the search path. -/
def noNodeWorktree : Worktree :=
  { root_path := "/home/user/proj"
    which := fun _ => none }

/-- A filesystem in which every path exists. -/
def fsAllExist : FileSystem := { pathExists := fun _ => true }

/-- A filesystem in which no path exists. -/
def fsNoneExist : FileSystem := { pathExists := fun _ => false }

/-- Only the packaged-layout relative candidate exists. -/
def fsOnlyRelative : FileSystem := { pathExists := fun p => p == "server.bundle.js" }

/-- The packaged-layout candidate plus an unrelated file exist. -/
def fsOnlyRelativePlus : FileSystem :=
  { pathExists := fun p => p == "server.bundle.js" || p == "/tmp/extra.txt" }

/-- Only the absolute fallback candidate exists. -/
def fsOnlyAbsolute : FileSystem := { pathExists := fun p => p == "/server.bundle.js" }

end TriggerSystem

namespace TriggerSystem

set_option maxRecDepth 8192

/-! ### Claim theorems -/

/-- Claim C1: whenever the development-layout candidate
`<root>/vscode-extension/dist/lsp/server.bundle.js` exists, the resolver
selects it (regardless of the other candidates), and the scan
short-circuits: the only existence check performed is the one on that
first candidate. -/
theorem C1_dev_candidate_priority
    (ext : TriggerSystemExtension) (id : String) (wt : Worktree)
    (fs : FileSystem) (np : String)
    (hn : wt.which "node" = some np)
    (h1 : fs.pathExists (pathJoin wt.root_path devBundleRel) = true) :
    (language_server_command ext id wt fs).result =
      .ok { command := np
            args := [pathJoin wt.root_path devBundleRel, "--stdio"]
            env := [] } ∧
    (language_server_command ext id wt fs).trace.filter Effect.isExistsCheck =
      [Effect.existsCheck (pathJoin wt.root_path devBundleRel)] := by
  simp [language_server_command, hn, lspCandidates, findBundle, h1,
    Effect.isExistsCheck, Effect.isWhichLookup, List.filter]

/-- Claim C1 witness: at a concrete worktree and a filesystem in which all
three candidates exist, the development candidate wins and is the only
path checked. -/
theorem C1_dev_candidate_priority_witness :
    sampleWorktree.which "node" = some "/usr/bin/node" ∧
    fsAllExist.pathExists (pathJoin sampleWorktree.root_path devBundleRel) = true ∧
    ((language_server_command {} "trigger-system" sampleWorktree fsAllExist).result =
      .ok { command := "/usr/bin/node"
            args := [pathJoin sampleWorktree.root_path devBundleRel, "--stdio"]
            env := [] } ∧
    (language_server_command {} "trigger-system" sampleWorktree fsAllExist).trace.filter
        Effect.isExistsCheck =
      [Effect.existsCheck (pathJoin sampleWorktree.root_path devBundleRel)]) :=
  ⟨by decide, by decide,
    C1_dev_candidate_priority {} "trigger-system" sampleWorktree fsAllExist
      "/usr/bin/node" (by decide) (by decide)⟩

/-- Claim C2: every successful invocation returns the interpreter found by
the `node` search-path lookup as the executable, exactly
`[<bundle_path>, "--stdio"]` as the argument list, and an empty/default
environment. -/
theorem C2_success_command_shape
    (ext : TriggerSystemExtension) (id : String) (wt : Worktree)
    (fs : FileSystem) (cmd : Command)
    (hok : (language_server_command ext id wt fs).result = .ok cmd) :
    wt.which "node" = some cmd.command ∧
    cmd.env = [] ∧
    ∃ bp, cmd.args = [bp, "--stdio"] := by
  cases hn : wt.which "node" with
  | none => simp [language_server_command, hn] at hok
  | some np =>
      cases hs : (findBundle fs (lspCandidates wt.root_path)).1 with
      | none => simp [language_server_command, hn, hs] at hok
      | some p =>
          simp [language_server_command, hn, hs] at hok
          subst hok
          exact ⟨rfl, rfl, p, rfl⟩

/-- Claim C2 witness: a concrete successful run has the located
interpreter, the two-element argument list, and the empty environment. -/
theorem C2_success_command_shape_witness :
    (language_server_command {} "trigger-system" sampleWorktree fsOnlyRelative).result =
      .ok { command := "/usr/bin/node"
            args := ["server.bundle.js", "--stdio"]
            env := [] } ∧
    (sampleWorktree.which "node" =
      some (Command.command { command := "/usr/bin/node"
                              args := ["server.bundle.js", "--stdio"]
                              env := [] }) ∧
    Command.env { command := "/usr/bin/node"
                  args := ["server.bundle.js", "--stdio"]
                  env := [] } = [] ∧
    ∃ bp, Command.args { command := "/usr/bin/node"
                         args := ["server.bundle.js", "--stdio"]
                         env := [] } = [bp, "--stdio"]) :=
  ⟨by decide,
    C2_success_command_shape {} "trigger-system" sampleWorktree fsOnlyRelative
      { command := "/usr/bin/node", args := ["server.bundle.js", "--stdio"], env := [] }
      (by decide)⟩

end TriggerSystem

namespace TriggerSystem

set_option maxRecDepth 8192

/-- Claim C3: when the interpreter is found but none of the three candidate
bundle paths exists, the resolver returns the `BundleNotFound` error, and
that message contains the three checked candidate paths (the development
candidate verbatim, for roots that need no Debug escaping) together with
the remediation hint to run the bundling build step. -/
theorem C3_bundle_not_found
    (ext : TriggerSystemExtension) (id : String) (wt : Worktree)
    (fs : FileSystem) (np : String)
    (hn : wt.which "node" = some np)
    (h1 : fs.pathExists (pathJoin wt.root_path devBundleRel) = false)
    (h2 : fs.pathExists "server.bundle.js" = false)
    (h3 : fs.pathExists "/server.bundle.js" = false)
    (hroot : escapeDebug wt.root_path = wt.root_path) :
    (language_server_command ext id wt fs).result =
      .error (bundleNotFoundMsg (pathJoin wt.root_path devBundleRel)) ∧
    strContains (bundleNotFoundMsg (pathJoin wt.root_path devBundleRel))
      (pathJoin wt.root_path devBundleRel) ∧
    strContains (bundleNotFoundMsg (pathJoin wt.root_path devBundleRel))
      "server.bundle.js" ∧
    strContains (bundleNotFoundMsg (pathJoin wt.root_path devBundleRel))
      "/server.bundle.js" ∧
    strContains (bundleNotFoundMsg (pathJoin wt.root_path devBundleRel))
      "Ensure 'bun run build:lsp' was run and the bundle is in the extension folder." := by
  refine ⟨?_, bundleNotFoundMsg_contains_first _ (escapeDebug_pathJoin_dev _ hroot),
    ?_, ?_, ?_⟩
  · simp [language_server_command, hn, lspCandidates, findBundle, h1, h2, h3]
  · exact strContains_append_right _ _ _ (by decide)
  · exact strContains_append_right _ _ _ (by decide)
  · exact strContains_append_right _ _ _ (by decide)

/-- Claim C3 witness: on a filesystem with no candidate present, the
concrete run yields the enumerating error message. -/
theorem C3_bundle_not_found_witness :
    (language_server_command {} "trigger-system" sampleWorktree fsNoneExist).result =
      .error (bundleNotFoundMsg (pathJoin sampleWorktree.root_path devBundleRel)) ∧
    strContains (bundleNotFoundMsg (pathJoin sampleWorktree.root_path devBundleRel))
      (pathJoin sampleWorktree.root_path devBundleRel) ∧
    strContains (bundleNotFoundMsg (pathJoin sampleWorktree.root_path devBundleRel))
      "server.bundle.js" ∧
    strContains (bundleNotFoundMsg (pathJoin sampleWorktree.root_path devBundleRel))
      "/server.bundle.js" ∧
    strContains (bundleNotFoundMsg (pathJoin sampleWorktree.root_path devBundleRel))
      "Ensure 'bun run build:lsp' was run and the bundle is in the extension folder." :=
  C3_bundle_not_found {} "trigger-system" sampleWorktree fsNoneExist
    "/usr/bin/node" (by decide) (by decide) (by decide) (by decide) (by decide)

/-- Claim C4: when no `node` interpreter is found on the search path, the
resolver fails with the interpreter-not-found message for every
filesystem (so regardless of bundle presence), and the trace is just the
single search-path lookup — no existence check ever happens, so
interpreter absence is never masked by a bundle error. -/
theorem C4_interpreter_missing
    (ext : TriggerSystemExtension) (id : String) (wt : Worktree)
    (fs : FileSystem)
    (hn : wt.which "node" = none) :
    (language_server_command ext id wt fs).result = .error interpreterNotFoundMsg ∧
    (language_server_command ext id wt fs).trace = [Effect.whichLookup "node"] := by
  simp [language_server_command, hn]

/-- Claim C4 witness: with no `node` available but every bundle candidate
present, the run still reports the interpreter error and checks no path. -/
theorem C4_interpreter_missing_witness :
    (language_server_command {} "trigger-system" noNodeWorktree fsAllExist).result =
      .error interpreterNotFoundMsg ∧
    (language_server_command {} "trigger-system" noNodeWorktree fsAllExist).trace =
      [Effect.whichLookup "node"] :=
  C4_interpreter_missing {} "trigger-system" noNodeWorktree fsAllExist (by decide)

/-- Claim C5: when the development-layout candidate is absent, the resolver
selects `server.bundle.js` when it exists, and selects `/server.bundle.js`
when only that one exists. -/
theorem C5_fallback_candidates
    (ext : TriggerSystemExtension) (id : String) (wt : Worktree)
    (fs : FileSystem) (np : String)
    (hn : wt.which "node" = some np)
    (h1 : fs.pathExists (pathJoin wt.root_path devBundleRel) = false) :
    (fs.pathExists "server.bundle.js" = true →
      (language_server_command ext id wt fs).result =
        .ok { command := np, args := ["server.bundle.js", "--stdio"], env := [] }) ∧
    (fs.pathExists "server.bundle.js" = false →
      fs.pathExists "/server.bundle.js" = true →
      (language_server_command ext id wt fs).result =
        .ok { command := np, args := ["/server.bundle.js", "--stdio"], env := [] }) := by
  constructor
  · intro h2
    simp [language_server_command, hn, lspCandidates, findBundle, h1, h2]
  · intro h2 h3
    simp [language_server_command, hn, lspCandidates, findBundle, h1, h2, h3]

/-- Claim C5 witness: a run where only the relative candidate exists picks
it, and a run where only the absolute candidate exists picks that one. -/
theorem C5_fallback_candidates_witness :
    (language_server_command {} "trigger-system" sampleWorktree fsOnlyRelative).result =
      .ok { command := "/usr/bin/node", args := ["server.bundle.js", "--stdio"], env := [] } ∧
    (language_server_command {} "trigger-system" sampleWorktree fsOnlyAbsolute).result =
      .ok { command := "/usr/bin/node", args := ["/server.bundle.js", "--stdio"], env := [] } :=
  ⟨(C5_fallback_candidates {} "trigger-system" sampleWorktree fsOnlyRelative
      "/usr/bin/node" (by decide) (by decide)).1 (by decide),
   (C5_fallback_candidates {} "trigger-system" sampleWorktree fsOnlyAbsolute
      "/usr/bin/node" (by decide) (by decide)).2 (by decide) (by decide)⟩

end TriggerSystem

namespace TriggerSystem

set_option maxRecDepth 8192

/-- Claim C6: every returned command carries, as its first argument, one of
the three fixed candidate paths, and that path's existence check answered
`true` during resolution; the resolver never substitutes a different
bundle. -/
theorem C6_selected_bundle_existed
    (ext : TriggerSystemExtension) (id : String) (wt : Worktree)
    (fs : FileSystem) (cmd : Command)
    (hok : (language_server_command ext id wt fs).result = .ok cmd) :
    ∃ bp, bp ∈ lspCandidates wt.root_path ∧ fs.pathExists bp = true ∧
      cmd.args = [bp, "--stdio"] := by
  cases hn : wt.which "node" with
  | none => simp [language_server_command, hn] at hok
  | some np =>
      cases hs : (findBundle fs (lspCandidates wt.root_path)).1 with
      | none => simp [language_server_command, hn, hs] at hok
      | some p =>
          simp [language_server_command, hn, hs] at hok
          subst hok
          obtain ⟨hmem, hex⟩ := findBundle_found fs _ p hs
          exact ⟨p, hmem, hex, rfl⟩

/-- Claim C6 witness: the bundle launched by a concrete successful run is a
candidate that existed. -/
theorem C6_selected_bundle_existed_witness :
    ∃ bp, bp ∈ lspCandidates sampleWorktree.root_path ∧
      fsOnlyAbsolute.pathExists bp = true ∧
      Command.args { command := "/usr/bin/node"
                     args := ["/server.bundle.js", "--stdio"]
                     env := ([] : List (String × String)) } = [bp, "--stdio"] :=
  C6_selected_bundle_existed {} "trigger-system" sampleWorktree fsOnlyAbsolute
    { command := "/usr/bin/node", args := ["/server.bundle.js", "--stdio"], env := [] }
    (by decide)

/-- Claim C7: every run performs only read-only effects (search-path
lookups and existence checks — in particular no filesystem write and no
process spawn appears in the trace), and performs exactly one search-path
lookup. -/
theorem C7_read_only_effects
    (ext : TriggerSystemExtension) (id : String) (wt : Worktree)
    (fs : FileSystem) :
    (language_server_command ext id wt fs).trace.all Effect.isReadOnly = true ∧
    (language_server_command ext id wt fs).trace.countP Effect.isWhichLookup = 1 := by
  cases hn : wt.which "node" with
  | none =>
      constructor
      · simp [language_server_command, hn]
        rfl
      · simp [language_server_command, hn]
        rfl
  | some np =>
      cases hs : (findBundle fs (lspCandidates wt.root_path)).1 with
      | none =>
          constructor
          · simp only [language_server_command, hn, hs, List.all_cons]
            rw [findBundle_trace_all_reads]
            rfl
          · simp only [language_server_command, hn, hs, List.countP_cons]
            rw [findBundle_trace_no_which]
            rfl
      | some p =>
          constructor
          · simp only [language_server_command, hn, hs, List.all_cons]
            rw [findBundle_trace_all_reads]
            rfl
          · simp only [language_server_command, hn, hs, List.countP_cons]
            rw [findBundle_trace_no_which]
            rfl

/-- Claim C8: the result of `language_server_command` does not depend on
the language-server id: two invocations equal in everything but the id
return the same outcome, extension state, and trace. -/
theorem C8_id_irrelevant
    (ext : TriggerSystemExtension) (id1 id2 : String) (wt : Worktree)
    (fs : FileSystem) :
    language_server_command ext id1 wt fs = language_server_command ext id2 wt fs :=
  rfl

/-- Claim C9: the resolver is deterministic with respect to its environment
oracle: if the `node` lookup answers the same, the root path is the same,
and every candidate existence check answers the same, the two runs return
the same result. -/
theorem C9_deterministic
    (ext1 ext2 : TriggerSystemExtension) (id1 id2 : String)
    (wt1 wt2 : Worktree) (fs1 fs2 : FileSystem)
    (hroot : wt1.root_path = wt2.root_path)
    (hwhich : wt1.which "node" = wt2.which "node")
    (hfs : ∀ p ∈ lspCandidates wt1.root_path, fs1.pathExists p = fs2.pathExists p) :
    (language_server_command ext1 id1 wt1 fs1).result =
      (language_server_command ext2 id2 wt2 fs2).result := by
  have hfb : findBundle fs2 (lspCandidates wt1.root_path) =
      findBundle fs1 (lspCandidates wt1.root_path) :=
    (findBundle_congr fs1 fs2 _ hfs).symm
  cases hn : wt1.which "node" with
  | none =>
      simp [language_server_command, hn, ← hwhich]
  | some np =>
      cases hs : (findBundle fs1 (lspCandidates wt1.root_path)).1 with
      | none =>
          simp [language_server_command, hn, ← hwhich, ← hroot, hfb, hs]
      | some p =>
          simp [language_server_command, hn, ← hwhich, ← hroot, hfb, hs]

/-- Claim C9 witness: two runs over different extension values, ids,
`which` oracles (equal on `node`), and filesystems (equal on the three
candidates) produce the same result. -/
theorem C9_deterministic_witness :
    (language_server_command {} "id-one" sampleWorktree fsOnlyRelative).result =
      (language_server_command {} "id-two" sampleWorktree2 fsOnlyRelativePlus).result :=
  C9_deterministic {} {} "id-one" "id-two" sampleWorktree sampleWorktree2
    fsOnlyRelative fsOnlyRelativePlus (by decide) (by decide) (by decide)

/-- Claim C10: the extension state is unchanged by every call: the state
returned alongside the result equals the state passed in, on success and
on error alike. -/
theorem C10_extension_state_unchanged
    (ext : TriggerSystemExtension) (id : String) (wt : Worktree)
    (fs : FileSystem) :
    (language_server_command ext id wt fs).ext = ext := by
  cases hn : wt.which "node" with
  | none => simp [language_server_command, hn]
  | some np =>
      cases hs : (findBundle fs (lspCandidates wt.root_path)).1 with
      | none => simp [language_server_command, hn, hs]
      | some p => simp [language_server_command, hn, hs]

end TriggerSystem
